import Mathlib

/-!
Verification of the POI placement-and-validation core of the
guadalahacks_2025 repository (src/visualizar_lados.py and
src/visualizar_violaciones.py) against its specification.

The scripts work over shapely geometries in a flat geographic CRS.  We
embed coordinates as pairs of rationals; segment length (Euclidean in
the scripts, hence involving square roots) is kept as an abstract
parameter `len` of every definition that walks arc length, so that all
definitions stay executable and every theorem quantifies over the
metric.  Foreign shapely calls whose results the scripts only inspect
(parallel_offset inside a try/except) are modelled as oracle arguments
returning `Except Unit Geometry`, the `.error` case standing for a
raised exception.  A Python function that can raise an uncaught
exception is embedded with an `Option` result, `none` standing for the
raise.
-/

/-- A 2D coordinate, as a shapely point `(x, y)`. -/
abbrev Pt : Type := ℚ × ℚ

/-- The shapely geometry kinds the scripts dispatch on: `LineString`
(an ordered coordinate list), `MultiLineString` (a list of parts),
`Point`, and anything else (polygons, empty collections, ...). -/
inductive Geometry : Type where
  | lineString (coords : List Pt) : Geometry
  | multiLineString (parts : List (List Pt)) : Geometry
  | point (p : Pt) : Geometry
  | other : Geometry
deriving DecidableEq, Repr

/-- Coordinate list `geometry.coords`; `none` models the shapely exception on
geometries that expose no coordinate sequence (a `MultiLineString` or a
polygon raise on `.coords`; a `Point` yields its single coordinate). -/
def Geometry.coords : Geometry → Option (List Pt)
  | .lineString c => some c
  | .point p => some [p]
  | _ => none

/-- Emptiness test `geometry.is_empty`: a line with no coordinates, a multiline whose
parts are all empty, and the empty collection are empty. -/
def Geometry.is_empty : Geometry → Bool
  | .lineString c => c.isEmpty
  | .multiLineString ps => ps.all (·.isEmpty)
  | .point _ => false
  | .other => true

/-- Try to join `part` onto `chain` when they share an endpoint,
reversing `part` if needed; models one merge step of
`shapely.ops.linemerge`. -/
def tryAttach (chain seg : List Pt) : Option (List Pt) :=
  if chain.getLast? = seg.head? then some (chain ++ seg.tail)
  else if chain.getLast? = seg.getLast? then some (chain ++ seg.reverse.tail)
  else if seg.getLast? = chain.head? then some (seg ++ chain.tail)
  else if seg.head? = chain.head? then some (seg.reverse ++ chain.tail)
  else none

/-- Insert one part into the running list of chains: extend the first
chain it attaches to, else append it as a new chain (so chains are
created, and kept, in original part order). -/
def addPart (chains : List (List Pt)) (seg : List Pt) : List (List Pt) :=
  match chains with
  | [] => [seg]
  | c :: cs =>
    match tryAttach c seg with
    | some c2 => c2 :: cs
    | none => c :: addPart cs seg

/-- Greedy endpoint-matching merge of the usable line parts, in input
order; models the chain-forming pass of `shapely.ops.linemerge`. -/
def mergeParts (parts : List (List Pt)) : List (List Pt) :=
  (parts.filter fun p => 2 ≤ p.length).foldl addPart []

/-- Models `shapely.ops.linemerge` on a `MultiLineString`'s parts: one
resulting chain is returned as a `LineString`, several as a
`MultiLineString`, and no usable chain at all as an unusable geometry
(shapely's empty `GeometryCollection`). -/
def linemerge (parts : List (List Pt)) : Geometry :=
  match mergeParts parts with
  | [] => Geometry.other
  | [c] => Geometry.lineString c
  | cs => Geometry.multiLineString cs

/-- First and last coordinates `coords[0], coords[-1]`; `none` models the `IndexError` raised on an
empty coordinate list. -/
def startEnd (c : List Pt) : Option (Pt × Pt) :=
  match c.head?, c.getLast? with
  | some s, some e => some (s, e)
  | _, _ => none

/-- The 2D cross product computed at src/visualizar_lados.py:105-107:
`v_link = end - start`, `v_poi = point - start`,
`cross = v_link.x * v_poi.y - v_link.y * v_poi.x`. -/
def cross (s e p : Pt) : ℚ :=
  (e.1 - s.1) * (p.2 - s.2) - (e.2 - s.2) * (p.1 - s.1)

/-- The computed side label of src/visualizar_lados.py:109:
`"L"` (Left) when the cross product is positive, `"R"` (Right) when it
is negative, `"Eje"` (OnAxis) when it is zero. -/
def lado_real (s e p : Pt) : String :=
  if 0 < cross s e p then "L" else if cross s e p < 0 then "R" else "Eje"

/-- The reference-curve resolution performed inside
`verificar_lado_correcto` (src/visualizar_lados.py:95-102): a
`MultiLineString` is merged, a merge to a line is used, a merge to
several chains falls back to the first chain, anything else is the
unresolved case; a non-multiline geometry is used as it is. -/
def resolveLineCheck : Geometry → Option Geometry
  | .multiLineString parts =>
    match linemerge parts with
    | .lineString c => some (Geometry.lineString c)
    | .multiLineString cs => cs.head?.map Geometry.lineString
    | _ => none
  | g => some g

/-- The fraction clamp of src/visualizar_lados.py:63:
`perc = min(max(row["PERCFRREF"], 0), 1)`. -/
def clamp (f : ℚ) : ℚ := min (max f 0) 1

/-- Linear interpolation between two coordinates. -/
def lerp (a b : Pt) (t : ℚ) : Pt :=
  (a.1 + t * (b.1 - a.1), a.2 + t * (b.2 - a.2))

/-- Arc length of a polyline under the segment metric `len`. -/
def polyLength (len : Pt → Pt → ℚ) : List Pt → ℚ
  | a :: b :: rest => len a b + polyLength len (b :: rest)
  | _ => 0

/-- Walk `target` of arc length along a polyline and return the reached
point; models the segment walk of shapely's `interpolate` (a target
beyond the end yields the last coordinate). -/
def walk (len : Pt → Pt → ℚ) : List Pt → ℚ → Pt
  | [], _ => (0, 0)
  | [a], _ => a
  | a :: b :: rest, target =>
    if target ≤ len a b then lerp a b (target / len a b)
    else walk len (b :: rest) (target - len a b)

/-- Normalized interpolation `line.interpolate(t, normalized=True)`: walk the fraction `t` of the
total arc length. -/
def interpolateNormalized (len : Pt → Pt → ℚ) (c : List Pt) (t : ℚ) : Pt :=
  walk len c (t * polyLength len c)

/-- Absolute interpolation `line.interpolate(d)` with an absolute distance `d`. -/
def interpolateAbs (len : Pt → Pt → ℚ) (c : List Pt) (d : ℚ) : Pt :=
  walk len c d

/-- An offset-curve result the placement code cannot interpolate on:
empty, or neither a `LineString` nor a `MultiLineString`. -/
def offsetDegenerate (g : Geometry) : Bool :=
  g.is_empty ||
    match g with
    | .lineString _ => false
    | .multiLineString _ => false
    | _ => true

/-- The offset branch of `get_point_along_link`
(src/visualizar_lados.py:66-83).  `offres` is the outcome of the
foreign `line.parallel_offset(0.0001, side, join_style=2)` call:
`.error` models a raised exception, caught by the `except` clause.  An
empty or unusable offset geometry falls back to the base point; a line
offset is interpolated at `offset.length * perc`, a multiline offset at
the same fraction of its first part. -/
def applyOffset (len : Pt → Pt → ℚ) (offres : Except Unit Geometry)
    (point : Pt) (perc : ℚ) : Pt :=
  match offres with
  | .error _ => point
  | .ok off =>
    if off.is_empty then point
    else
      match off with
      | .lineString c => interpolateAbs len c (polyLength len c * perc)
      | .multiLineString ps =>
        match ps.head? with
        | some c => interpolateAbs len c (polyLength len c * perc)
        | none => point
      | _ => point

/-- The reference-curve resolution performed inside
`get_point_along_link` (src/visualizar_lados.py:50-61): merge a
`MultiLineString` (first chain on a multi-chain merge, `None` on an
unusable merge), use a `LineString` as it is, and return `None` for any
other geometry kind. -/
def resolveLinePlacement : Geometry → Option (List Pt)
  | .multiLineString parts =>
    match linemerge parts with
    | .lineString c => some c
    | .multiLineString cs => cs.head?
    | _ => none
  | .lineString c => some c
  | _ => none

/-- Embedding of `get_point_along_link` (src/visualizar_lados.py:48-83).
`len` is the segment metric, `paroff line side` the oracle for the
foreign `line.parallel_offset` call, `geom` the row's `link_geometry`,
`percfrref` the `PERCFRREF` column and `side` the `POI_ST_SD` column.
`none` is the Python `None` returned on unresolvable geometry. -/
def get_point_along_link (len : Pt → Pt → ℚ)
    (paroff : List Pt → String → Except Unit Geometry)
    (geom : Geometry) (percfrref : ℚ) (side : String) : Option Pt :=
  match resolveLinePlacement geom with
  | none => none
  | some line =>
    let perc := clamp percfrref
    let point := interpolateNormalized len line perc
    if side = "R" then some (applyOffset len (paroff line "R") point perc)
    else if side = "L" then some (applyOffset len (paroff line "L") point perc)
    else some point

/-- Embedding of `verificar_lado_correcto`
(src/visualizar_lados.py:91-110).  `geom` is the row's placed point
(`none` when placement failed), `link` the saved link geometry,
`declared` the `POI_ST_SD` column.  The result `none` models an
uncaught exception: `geom.x` on a missing point, or `line.coords` /
`coords[0]` on a geometry without usable coordinates. -/
def verificar_lado_correcto (geom : Option Pt) (link : Geometry)
    (declared : String) : Option String :=
  match resolveLineCheck link with
  | none => some "indeterminado"
  | some lg =>
    match Option.bind lg.coords startEnd with
    | none => none
    | some (s, e) =>
      match geom with
      | none => none
      | some p =>
        some (if lado_real s e p = declared then "correcto" else "lado_incorrecto")

/-- A joined POI row of src/visualizar_lados.py:42-43: the saved link
geometry and the POI's fraction and declared side. -/
structure PoiLinkRow : Type where
  link_geometry : Geometry
  percfrref : ℚ
  poi_st_sd : String
deriving DecidableEq

/-- The two batch passes of src/visualizar_lados.py:85 and 113: place
every POI, then classify every POI against its link with the placed
geometry.  A `none` in the second component models verificar
raising (which aborts the real pandas apply). -/
def pipeline (len : Pt → Pt → ℚ)
    (paroff : List Pt → String → Except Unit Geometry)
    (rows : List PoiLinkRow) : List (Option Pt × Option String) :=
  rows.map fun row =>
    let g := get_point_along_link len paroff row.link_geometry
      row.percfrref row.poi_st_sd
    (g, verificar_lado_correcto g row.link_geometry row.poi_st_sd)

/-- A street-link record of src/visualizar_violaciones.py: identifier,
the `MULTIDIGIT == "Y"` flag and the link geometry. -/
structure LinkRec : Type where
  link_id : String
  multidigit : Bool
  geometry : Geometry
deriving DecidableEq

/-- A placed POI row as consumed by the violation loop: its `LINK_ID`
and the placed geometry (absent when placement failed). -/
structure PlacedPoi : Type where
  link_id : String
  geometry : Option Pt
deriving DecidableEq

/-- Consecutive segments of a polyline. -/
def segs : List Pt → List (Pt × Pt)
  | a :: b :: rest => (a, b) :: segs (b :: rest)
  | _ => []

/-- The vertices of a polyline other than its two ends. -/
def innerVertices (c : List Pt) : List Pt := (c.drop 1).dropLast

/-- Strict interior of the flat-cap rectangle of half-width `r` around
segment `a b`: the projection parameter lies strictly between the two
end perpendiculars and the perpendicular distance is strictly below
`r` (stated on squares to stay rational). -/
def inOpenSegRect (a b : Pt) (r : ℚ) (p : Pt) : Bool :=
  let dx := b.1 - a.1
  let dy := b.2 - a.2
  let wx := p.1 - a.1
  let wy := p.2 - a.2
  let dot := dx * wx + dy * wy
  let n2 := dx * dx + dy * dy
  let cr := dx * wy - dy * wx
  decide (0 < dot) && decide (dot < n2) && decide (cr * cr < r * r * n2)

/-- Strict interior of the disk of radius `r` around `v`. -/
def inOpenDisk (v : Pt) (r : ℚ) (p : Pt) : Bool :=
  decide ((p.1 - v.1) * (p.1 - v.1) + (p.2 - v.2) * (p.2 - v.2) < r * r)

/-- Closed version of `inOpenSegRect`. -/
def inClosedSegRect (a b : Pt) (r : ℚ) (p : Pt) : Bool :=
  let dx := b.1 - a.1
  let dy := b.2 - a.2
  let wx := p.1 - a.1
  let wy := p.2 - a.2
  let dot := dx * wx + dy * wy
  let n2 := dx * dx + dy * dy
  let cr := dx * wy - dy * wx
  decide (0 ≤ dot) && decide (dot ≤ n2) && decide (cr * cr ≤ r * r * n2)

/-- Closed version of `inOpenDisk`. -/
def inClosedDisk (v : Pt) (r : ℚ) (p : Pt) : Bool :=
  decide ((p.1 - v.1) * (p.1 - v.1) + (p.2 - v.2) * (p.2 - v.2) ≤ r * r)

/-- Models `link_geom.buffer(r, cap_style=2).contains(point)` for a
polyline: `contains` holds of the interior of the buffer polygon only,
which for a flat-cap buffer is the union of the open per-segment
rectangles and (from the default round joins) the open disks around the
interior vertices; the flat caps leave the end perpendiculars on the
boundary. -/
def bufferContains (c : List Pt) (r : ℚ) (p : Pt) : Bool :=
  (segs c).any (fun ab => inOpenSegRect ab.1 ab.2 r p)
    || (innerVertices c).any (fun v => inOpenDisk v r p)

/-- The closed flat-cap buffer (buffer polygon with its boundary). -/
def bufferClosed (c : List Pt) (r : ℚ) (p : Pt) : Bool :=
  (segs c).any (fun ab => inClosedSegRect ab.1 ab.2 r p)
    || (innerVertices c).any (fun v => inClosedDisk v r p)

/-- Buffer containment lifted over the geometry kinds: a multiline
buffer is the union of its parts' buffers; a point or unusable geometry
has an empty flat-cap buffer. -/
def Geometry.bufContains : Geometry → ℚ → Pt → Bool
  | .lineString c, r, p => bufferContains c r p
  | .multiLineString ps, r, p => ps.any fun c => bufferContains c r p
  | _, _, _ => false

/-- One iteration of the violation loop
(src/visualizar_violaciones.py:90-102) for a row: the row is considered
only when its `LINK_ID` is among the multidigit links; `calle` is the
first multidigit link with that id, and the row is flagged when the
flat-cap buffer of radius `r` around that link's own geometry contains
the placed point.  `none` models `buffer.contains(None)` raising when
the row has no placed geometry; `some false` is an unflagged row. -/
def violacionFlag (links : List LinkRec) (r : ℚ) (row : PlacedPoi) :
    Option Bool :=
  let multidig := links.filter fun l => l.multidigit
  if multidig.any (fun l => l.link_id == row.link_id) then
    match multidig.find? (fun l => l.link_id == row.link_id) with
    | none => some false
    | some calle =>
      match row.geometry with
      | none => none
      | some p => some (calle.geometry.bufContains r p)
  else some false

/-- C1: for every placed point and reference curve with first coordinate
`s` and last coordinate `e`, the Side Validator computes
`cross = (e.x - s.x) * (p.y - s.y) - (e.y - s.y) * (p.x - s.x)` and
labels the point Left (`"L"`) when `cross > 0`, Right (`"R"`) when
`cross < 0`, and OnAxis (`"Eje"`) when `cross = 0`. -/
theorem c1_side_sign_rule (c : List Pt) (s e p : Pt) (d : String)
    (hs : c.head? = some s) (he : c.getLast? = some e) :
    verificar_lado_correcto (some p) (Geometry.lineString c) d
        = some (if lado_real s e p = d then "correcto" else "lado_incorrecto")
    ∧ cross s e p = (e.1 - s.1) * (p.2 - s.2) - (e.2 - s.2) * (p.1 - s.1)
    ∧ (0 < cross s e p → lado_real s e p = "L")
    ∧ (cross s e p < 0 → lado_real s e p = "R")
    ∧ (cross s e p = 0 → lado_real s e p = "Eje") := by
  refine ⟨?_, rfl, ?_, ?_, ?_⟩
  · simp [verificar_lado_correcto, resolveLineCheck, Geometry.coords, startEnd, hs, he]
  · intro h
    unfold lado_real
    rw [if_pos h]
  · intro h
    unfold lado_real
    rw [if_neg (by linarith), if_pos h]
  · intro h
    unfold lado_real
    rw [if_neg (by simp [h]), if_neg (by simp [h])]

/-- Witness for C1 at the curve `[(0,0),(1,0)]` and the point `(0,1)`. -/
theorem c1_side_sign_rule_witness :
    ([((0:ℚ), (0:ℚ)), (1, 0)] : List Pt).head? = some (0, 0)
    ∧ ([((0:ℚ), (0:ℚ)), (1, 0)] : List Pt).getLast? = some (1, 0)
    ∧ verificar_lado_correcto (some (0, 1)) (Geometry.lineString [(0, 0), (1, 0)]) "L"
        = some (if lado_real (0, 0) (1, 0) (0, 1) = "L" then "correcto" else "lado_incorrecto") :=
  ⟨by decide, by decide,
    (c1_side_sign_rule [(0, 0), (1, 0)] (0, 0) (1, 0) (0, 1) "L" (by decide) (by decide)).1⟩

/-- C10: when the declared side is `"L"` or `"R"` and the computed cross
product is exactly zero (computed side OnAxis), the Side Validator's
match result is `"lado_incorrecto"`: an on-axis point is never reported
correct. -/
theorem c10_onaxis_never_correct (c : List Pt) (s e p : Pt) (d : String)
    (hs : c.head? = some s) (he : c.getLast? = some e)
    (hd : d = "L" ∨ d = "R") (h0 : cross s e p = 0) :
    verificar_lado_correcto (some p) (Geometry.lineString c) d
      = some "lado_incorrecto" := by
  have hlr : lado_real s e p = "Eje" := by
    unfold lado_real
    rw [if_neg (by simp [h0]), if_neg (by simp [h0])]
  have hne : ¬ lado_real s e p = d := by
    rcases hd with hd | hd <;> simp [hlr, hd]
  simp [verificar_lado_correcto, resolveLineCheck, Geometry.coords, startEnd,
    hs, he, hne]

/-- Witness for C10: the point `(2,0)` lies on the axis of the curve
`[(0,0),(1,0)]` and is reported on the wrong side for declared `"L"`. -/
theorem c10_onaxis_never_correct_witness :
    cross (0, 0) (1, 0) (2, 0) = 0
    ∧ verificar_lado_correcto (some ((2:ℚ), (0:ℚ)))
        (Geometry.lineString [(0, 0), (1, 0)]) "L" = some "lado_incorrecto" :=
  ⟨by norm_num [cross],
    c10_onaxis_never_correct [(0, 0), (1, 0)] (0, 0) (1, 0) (2, 0) "L"
      rfl rfl (Or.inl rfl) (by norm_num [cross])⟩

/-- C8: the side classification is antisymmetric under reversal of the
curve's coordinate order: the reversed curve has start and end swapped,
the cross product flips sign, and for a point with nonzero cross
product the computed label flips Left and Right. -/
theorem c8_reversal_antisymmetry (c : List Pt) (s e p : Pt)
    (hs : c.head? = some s) (he : c.getLast? = some e)
    (h : cross s e p ≠ 0) :
    startEnd c = some (s, e)
    ∧ startEnd c.reverse = some (e, s)
    ∧ cross e s p = -cross s e p
    ∧ (lado_real e s p = "L" ↔ lado_real s e p = "R")
    ∧ (lado_real e s p = "R" ↔ lado_real s e p = "L") := by
  have hflip : cross e s p = -cross s e p := by
    unfold cross
    ring
  refine ⟨by simp [startEnd, hs, he], ?_, hflip, ?_, ?_⟩
  · have h1 : c.reverse.head? = some e := by rw [List.head?_reverse, he]
    have h2 : c.reverse.getLast? = some s := by rw [List.getLast?_reverse, hs]
    simp [startEnd, h1, h2]
  · rcases lt_trichotomy (cross s e p) 0 with hc | hc | hc
    · have hpos : 0 < cross e s p := by rw [hflip]; linarith
      unfold lado_real
      rw [if_pos hpos, if_neg (by linarith), if_pos hc]
      decide
    · exact absurd hc h
    · have hneg : cross e s p < 0 := by rw [hflip]; linarith
      unfold lado_real
      rw [if_neg (by linarith), if_pos hneg, if_pos hc]
      decide
  · rcases lt_trichotomy (cross s e p) 0 with hc | hc | hc
    · have hpos : 0 < cross e s p := by rw [hflip]; linarith
      unfold lado_real
      rw [if_pos hpos, if_neg (by linarith), if_pos hc]
      decide
    · exact absurd hc h
    · have hneg : cross e s p < 0 := by rw [hflip]; linarith
      unfold lado_real
      rw [if_neg (by linarith), if_pos hneg, if_pos hc]
      decide

/-- Witness for C8 at the curve `[(0,0),(1,0)]` and the point `(0,1)`. -/
theorem c8_reversal_antisymmetry_witness :
    cross (0, 0) (1, 0) ((0:ℚ), (1:ℚ)) ≠ 0
    ∧ (lado_real (1, 0) (0, 0) ((0:ℚ), (1:ℚ)) = "L"
        ↔ lado_real (0, 0) (1, 0) ((0:ℚ), (1:ℚ)) = "R") :=
  ⟨by norm_num [cross],
    (c8_reversal_antisymmetry [(0, 0), (1, 0)] (0, 0) (1, 0) (0, 1)
      rfl rfl (by norm_num [cross])).2.2.2.1⟩

/-- C2: when the Side Validator returns a result, that result is
`"indeterminado"` exactly when the reference curve could not be
resolved, and otherwise it is `"correcto"` exactly when the computed
side label equals the declared side and `"lado_incorrecto"` in every
other case. -/
theorem c2_match_result (p : Pt) (link : Geometry) (d r : String)
    (h : verificar_lado_correcto (some p) link d = some r) :
    ((r = "indeterminado") ↔ resolveLineCheck link = none)
    ∧ ∀ lg, resolveLineCheck link = some lg →
        ∃ s e, Option.bind lg.coords startEnd = some (s, e)
          ∧ ((r = "correcto") ↔ lado_real s e p = d)
          ∧ ((r = "lado_incorrecto") ↔ ¬ lado_real s e p = d) := by
  unfold verificar_lado_correcto at h
  rcases hres : resolveLineCheck link with _ | lg0 <;> rw [hres] at h
  · dsimp only at h
    simp only [Option.some.injEq] at h
    subst h
    refine ⟨by simp, ?_⟩
    intro lg hlg
    cases hlg
  · dsimp only at h
    rcases hse : Option.bind lg0.coords startEnd with _ | se <;> rw [hse] at h
    · cases h
    · rcases se with ⟨s0, e0⟩
      dsimp only at h
      simp only [Option.some.injEq] at h
      have hr3 : r = "correcto" ∨ r = "lado_incorrecto" := by
        by_cases hl : lado_real s0 e0 p = d
        · rw [if_pos hl] at h
          exact Or.inl h.symm
        · rw [if_neg hl] at h
          exact Or.inr h.symm
      constructor
      · constructor
        · intro hr
          rcases hr3 with h3 | h3 <;> rw [h3] at hr <;> exact absurd hr (by decide)
        · intro hnone
          cases hnone
      · intro lg hlg
        injection hlg with hlg
        subst hlg
        refine ⟨s0, e0, hse, ?_, ?_⟩
        · constructor
          · intro hr
            by_cases hl : lado_real s0 e0 p = d
            · exact hl
            · rw [if_neg hl] at h
              rw [← h] at hr
              exact absurd hr (by decide)
          · intro hl
            rw [← h, if_pos hl]
        · constructor
          · intro hr hl
            rw [if_pos hl] at h
            rw [← h] at hr
            exact absurd hr (by decide)
          · intro hl
            rw [← h, if_neg hl]

/-- Witness for C2: the validator returns `"correcto"` at a concrete
resolved curve, and the indeterminate equivalence holds there. -/
theorem c2_match_result_witness :
    verificar_lado_correcto (some ((1:ℚ), (2:ℚ)))
        (Geometry.lineString [(1, 0), (2, 0)]) "L" = some "correcto"
    ∧ (("correcto" = "indeterminado")
        ↔ resolveLineCheck (Geometry.lineString [((1:ℚ), (0:ℚ)), (2, 0)]) = none) := by
  have hv : verificar_lado_correcto (some ((1:ℚ), (2:ℚ)))
      (Geometry.lineString [(1, 0), (2, 0)]) "L" = some "correcto" := by
    have hl : lado_real ((1:ℚ), (0:ℚ)) (2, 0) (1, 2) = "L" := by
      unfold lado_real
      rw [if_pos (by norm_num [cross])]
    simp [verificar_lado_correcto, resolveLineCheck, Geometry.coords, startEnd, hl]
  exact ⟨hv, (c2_match_result (1, 2) (Geometry.lineString [(1, 0), (2, 0)]) "L"
    "correcto" hv).1⟩

/-- C3 (evidence of the code bug): a batch containing a POI whose link
geometry is a degenerate non-line geometry has its placement pass yield
`none` ("no placement possible"), but the side-classification pass then
evaluates `geom.x` on the missing point, which raises — the `none` in
the classification column — instead of treating the failure locally, so
the batch does not complete. -/
theorem c3_pipeline_throws :
    pipeline (fun _ _ => 1) (fun _ _ => Except.error ())
      [⟨Geometry.point (1, 1), 1 / 2, "L"⟩] = [(none, none)] := rfl

/-- C5: out-of-range fractions are clamped, never rejected: for every
metric, offset oracle, link geometry, fraction and declared side, the
placed point equals the placement at the clamped fraction. -/
theorem c5_clamp_idempotent (len : Pt → Pt → ℚ)
    (paroff : List Pt → String → Except Unit Geometry)
    (geom : Geometry) (f : ℚ) (side : String) :
    get_point_along_link len paroff geom f side
      = get_point_along_link len paroff geom (clamp f) side := by
  have h : clamp (clamp f) = clamp f := by
    have h0 : 0 ≤ clamp f := le_min (le_max_right f 0) zero_le_one
    have h1 : clamp f ≤ 1 := min_le_right _ _
    rw [clamp, max_eq_left h0, min_eq_left h1]
  unfold get_point_along_link
  rw [h]

/-- C6: on a straight two-point curve from `a` to `b`, placing a
fraction `f` in `[0,1]` with an unspecified declared side returns the
exact linear interpolation `a + f * (b - a)`, with no lateral offset
applied. -/
theorem c6_unspecified_lerp (len : Pt → Pt → ℚ)
    (paroff : List Pt → String → Except Unit Geometry)
    (a b : Pt) (f : ℚ) (side : String)
    (h0 : 0 ≤ f) (h1 : f ≤ 1) (hl : 0 < len a b)
    (hsL : side ≠ "L") (hsR : side ≠ "R") :
    get_point_along_link len paroff (Geometry.lineString [a, b]) f side
      = some (a.1 + f * (b.1 - a.1), a.2 + f * (b.2 - a.2)) := by
  have hclamp : clamp f = f := by
    unfold clamp
    rw [max_eq_left h0, min_eq_left h1]
  have hres : resolveLinePlacement (Geometry.lineString [a, b]) = some [a, b] := rfl
  have hlen : polyLength len [a, b] = len a b := by
    simp [polyLength]
  have hinterp : interpolateNormalized len [a, b] f = lerp a b f := by
    unfold interpolateNormalized
    rw [hlen]
    unfold walk
    have hle : f * len a b ≤ len a b := by nlinarith
    rw [if_pos hle, mul_div_assoc, div_self hl.ne', mul_one]
  unfold get_point_along_link
  rw [hres]
  dsimp only
  rw [hclamp, hinterp, if_neg hsR, if_neg hsL]
  rfl

/-- Witness for C6 at the curve from `(1,0)` to `(3,2)`, fraction `1/2`,
declared side `"X"`. -/
theorem c6_unspecified_lerp_witness :
    (0:ℚ) ≤ 1 / 2 ∧ (1 / 2 : ℚ) ≤ 1
    ∧ get_point_along_link (fun _ _ => 1) (fun _ _ => Except.error ())
        (Geometry.lineString [(1, 0), (3, 2)]) (1 / 2) "X"
      = some ((1:ℚ) + 1 / 2 * (3 - 1), (0:ℚ) + 1 / 2 * (2 - 0)) :=
  ⟨by norm_num, by norm_num,
    c6_unspecified_lerp (fun _ _ => 1) (fun _ _ => Except.error ())
      (1, 0) (3, 2) (1 / 2) "X" (by norm_num) (by norm_num) one_pos
      (by decide) (by decide)⟩

/-- C4: when the declared side is `"L"` or `"R"` and the offset
construction raises, returns an empty offset curve, or returns a
geometry the code cannot interpolate on, placement falls back to the
unmodified base point interpolated on the original curve and never
fails. -/
theorem c4_offset_fallback (len : Pt → Pt → ℚ)
    (paroff : List Pt → String → Except Unit Geometry)
    (geom : Geometry) (line : List Pt) (f : ℚ) (side : String)
    (hres : resolveLinePlacement geom = some line)
    (hside : side = "L" ∨ side = "R")
    (hoff : paroff line side = Except.error ()
      ∨ ∃ g, paroff line side = Except.ok g ∧ offsetDegenerate g = true) :
    get_point_along_link len paroff geom f side
      = some (interpolateNormalized len line (clamp f)) := by
  have happ : applyOffset len (paroff line side)
      (interpolateNormalized len line (clamp f)) (clamp f)
      = interpolateNormalized len line (clamp f) := by
    rcases hoff with hoff | ⟨g, hg, hdeg⟩
    · rw [hoff]
      rfl
    · rw [hg]
      cases g <;> simp_all [applyOffset, offsetDegenerate, Geometry.is_empty]
  unfold get_point_along_link
  rw [hres]
  dsimp only
  rcases hside with hside | hside <;> subst hside
  · rw [if_neg (by decide), if_pos rfl, happ]
  · rw [if_pos rfl, happ]

/-- Witness for C4: the offset oracle raises and placement returns the
base point. -/
theorem c4_offset_fallback_witness :
    get_point_along_link (fun _ _ => 1) (fun _ _ => Except.error ())
      (Geometry.lineString [(1, 0), (2, 0)]) (1 / 2) "L"
      = some (interpolateNormalized (fun _ _ => 1)
          [((1:ℚ), (0:ℚ)), (2, 0)] (clamp (1 / 2))) :=
  c4_offset_fallback (fun _ _ => 1) (fun _ _ => Except.error ())
    (Geometry.lineString [(1, 0), (2, 0)]) [(1, 0), (2, 0)] (1 / 2) "L"
    rfl (Or.inl rfl) (Or.inl rfl)

/-- A chain grown from the seed part `p` by successively attaching
later parts with `tryAttach`. -/
inductive ChainExt (p : List Pt) : List Pt → Prop where
  | refl : ChainExt p p
  | step {c c2 seg : List Pt} : ChainExt p c → tryAttach c seg = some c2 →
      ChainExt p c2

/-- Folding further parts into a chain list never loses or reorders the
head chain: it only grows by attachments. -/
theorem foldl_addPart_head (l : List (List Pt)) :
    ∀ (p c0 : List Pt) (others : List (List Pt)), ChainExt p c0 →
      ∃ c2 others2, l.foldl addPart (c0 :: others) = c2 :: others2
        ∧ ChainExt p c2 := by
  induction l with
  | nil => exact fun p c0 others h => ⟨c0, others, rfl, h⟩
  | cons seg l ih =>
    intro p c0 others h
    show ∃ c2 others2, l.foldl addPart (addPart (c0 :: others) seg) = _ ∧ _
    unfold addPart
    rcases hatt : tryAttach c0 seg with _ | c1
    · exact ih p c0 (addPart others seg) h
    · exact ih p c1 others (ChainExt.step h hatt)

/-- C9: when a link's multi-part geometry merges into several disjoint
chains, both the placement pass and the side-validation pass resolve
the link to the same reference curve, namely the first chain of the
merge result, and that chain is the one grown from the first usable
part in original part order. -/
theorem c9_first_chain (parts : List (List Pt)) (p0 : List Pt)
    (rest : List (List Pt)) (c : List Pt) (cs : List (List Pt))
    (hfil : (parts.filter fun q => 2 ≤ q.length) = p0 :: rest)
    (hmerge : linemerge parts = Geometry.multiLineString (c :: cs)) :
    resolveLinePlacement (Geometry.multiLineString parts) = some c
    ∧ resolveLineCheck (Geometry.multiLineString parts)
        = some (Geometry.lineString c)
    ∧ ChainExt p0 c := by
  have hext : ChainExt p0 c := by
    have hmp : mergeParts parts = (p0 :: rest).foldl addPart [] := by
      unfold mergeParts
      rw [hfil]
    obtain ⟨c2, others2, hfold, hch⟩ :=
      foldl_addPart_head rest p0 p0 [] ChainExt.refl
    have hmp2 : mergeParts parts = c2 :: others2 := by
      rw [hmp]
      exact hfold
    have hcc : c2 = c := by
      unfold linemerge at hmerge
      rw [hmp2] at hmerge
      rcases others2 with _ | ⟨o, os⟩
      · cases hmerge
      · dsimp only at hmerge
        injection hmerge with hm
        injection hm with h1 h2
    rw [← hcc]
    exact hch
  refine ⟨?_, ?_, hext⟩
  · unfold resolveLinePlacement
    dsimp only
    rw [hmerge]
    rfl
  · unfold resolveLineCheck
    dsimp only
    rw [hmerge]
    rfl

/-- Witness for C9: two disjoint two-point parts merge to two chains and
both resolutions pick the first part's chain. -/
theorem c9_first_chain_witness :
    (([[((1:ℚ), (0:ℚ)), (2, 0)], [(5, 5), (6, 5)]] : List (List Pt)).filter
        fun q => 2 ≤ q.length) = [[(1, 0), (2, 0)], [(5, 5), (6, 5)]]
    ∧ linemerge [[((1:ℚ), (0:ℚ)), (2, 0)], [(5, 5), (6, 5)]]
        = Geometry.multiLineString [[(1, 0), (2, 0)], [(5, 5), (6, 5)]]
    ∧ resolveLinePlacement
        (Geometry.multiLineString [[((1:ℚ), (0:ℚ)), (2, 0)], [(5, 5), (6, 5)]])
        = some [(1, 0), (2, 0)] :=
  ⟨rfl, rfl,
    (c9_first_chain [[(1, 0), (2, 0)], [(5, 5), (6, 5)]] [(1, 0), (2, 0)]
      [[(5, 5), (6, 5)]] [(1, 0), (2, 0)] [[(5, 5), (6, 5)]] rfl rfl).1⟩

/-- A point in the open buffer is in the closed buffer. -/
theorem bufferContains_subset_closed (c : List Pt) (r : ℚ) (p : Pt)
    (h : bufferContains c r p = true) : bufferClosed c r p = true := by
  unfold bufferContains at h
  unfold bufferClosed
  rw [Bool.or_eq_true] at h ⊢
  rcases h with h | h
  · left
    rw [List.any_eq_true] at h ⊢
    obtain ⟨ab, hmem, hab⟩ := h
    refine ⟨ab, hmem, ?_⟩
    simp only [inOpenSegRect, Bool.and_eq_true, decide_eq_true_eq] at hab
    simp only [inClosedSegRect, Bool.and_eq_true, decide_eq_true_eq]
    exact ⟨⟨hab.1.1.le, hab.1.2.le⟩, hab.2.le⟩
  · right
    rw [List.any_eq_true] at h ⊢
    obtain ⟨v, hmem, hv⟩ := h
    refine ⟨v, hmem, ?_⟩
    simp only [inOpenDisk, decide_eq_true_eq] at hv
    simp only [inClosedDisk, decide_eq_true_eq]
    exact hv.le

/-- C7 (amended): a POI is examined only when a multidigit link carries
its identifier (a POI on a non-multidigit link is never flagged); an
examined POI is flagged exactly when its placed point lies in the
interior of the flat-cap buffer of radius `r` around its own link's
geometry.  Hence a point on or outside the buffer's boundary is never
flagged, and a point of the curve strictly inside one of its
non-degenerate segments is always flagged when `r > 0` — but a
distance-zero point on the buffer's boundary (such as a curve endpoint
under the flat caps) is not flagged. -/
theorem c7_buffer_violation (links : List LinkRec) (r : ℚ) (row : PlacedPoi) :
    (¬ ((links.filter fun l => l.multidigit).any
          fun l => l.link_id == row.link_id) = true →
        violacionFlag links r row = some false)
    ∧ ∀ calle p,
        (links.filter fun l => l.multidigit).find?
            (fun l => l.link_id == row.link_id) = some calle →
        row.geometry = some p →
        violacionFlag links r row = some (calle.geometry.bufContains r p)
        ∧ (∀ coords, calle.geometry = Geometry.lineString coords →
            bufferClosed coords r p = false →
            violacionFlag links r row = some false)
        ∧ (∀ coords a b t, calle.geometry = Geometry.lineString coords →
            (a, b) ∈ segs coords → p = lerp a b t → 0 < t → t < 1 →
            ¬ a = b → 0 < r → violacionFlag links r row = some true) := by
  constructor
  · intro hnot
    simp only [violacionFlag]
    rw [if_neg hnot]
  · intro calle p hfind hp
    have hpred := List.find?_some hfind
    have hmem0 : calle ∈ links.filter fun l => l.multidigit :=
      List.mem_of_find?_eq_some hfind
    have hany : ((links.filter fun l => l.multidigit).any
        fun l => l.link_id == row.link_id) = true :=
      List.any_eq_true.mpr ⟨calle, hmem0, hpred⟩
    have hflag : violacionFlag links r row
        = some (calle.geometry.bufContains r p) := by
      simp only [violacionFlag]
      rw [if_pos hany, hfind, hp]
    refine ⟨hflag, ?_, ?_⟩
    · intro coords hgeom hout
      have hopen : bufferContains coords r p = false := by
        rcases hbc : bufferContains coords r p with _ | _
        · rfl
        · rw [bufferContains_subset_closed coords r p hbc] at hout
          cases hout
      rw [hflag, hgeom]
      show some (bufferContains coords r p) = some false
      rw [hopen]
    · intro coords a b t hgeom hmem hpt ht0 ht1 hab hr
      subst hpt
      have hn2 : 0 < (b.1 - a.1) * (b.1 - a.1) + (b.2 - a.2) * (b.2 - a.2) := by
        by_contra hle
        push_neg at hle
        have h1 : b.1 - a.1 = 0 := by
          nlinarith [mul_self_nonneg (b.1 - a.1), mul_self_nonneg (b.2 - a.2)]
        have h2 : b.2 - a.2 = 0 := by
          nlinarith [mul_self_nonneg (b.1 - a.1), mul_self_nonneg (b.2 - a.2)]
        apply hab
        have e1 : a.1 = b.1 := by linarith
        have e2 : a.2 = b.2 := by linarith
        exact Prod.ext e1 e2
      have hkey : inOpenSegRect a b r (lerp a b t) = true := by
        simp only [inOpenSegRect, lerp, Bool.and_eq_true, decide_eq_true_eq]
        refine ⟨⟨?_, ?_⟩, ?_⟩
        · nlinarith [mul_pos ht0 hn2]
        · nlinarith [mul_pos (mul_pos (sub_pos.mpr ht1) ht0) hn2,
            mul_pos (sub_pos.mpr ht1) hn2]
        · nlinarith [mul_pos (mul_pos hr hr) hn2]
      have hbuf : bufferContains coords r (lerp a b t) = true := by
        unfold bufferContains
        rw [Bool.or_eq_true]
        left
        rw [List.any_eq_true]
        exact ⟨(a, b), hmem, hkey⟩
      rw [hflag, hgeom]
      show some (bufferContains coords r (lerp a b t)) = some true
      rw [hbuf]

/-- Witness for C7: a point strictly inside a segment of a multidigit
link's curve is flagged at positive radius. -/
theorem c7_buffer_violation_witness :
    violacionFlag [⟨"1", true, Geometry.lineString [(1, 0), (3, 0)]⟩]
      (3 / 20000) ⟨"1", some (2, 0)⟩ = some true :=
  ((c7_buffer_violation [⟨"1", true, Geometry.lineString [(1, 0), (3, 0)]⟩]
      (3 / 20000) ⟨"1", some (2, 0)⟩).2 ⟨"1", true, Geometry.lineString [(1, 0), (3, 0)]⟩
      (2, 0) rfl rfl).2.2 [(1, 0), (3, 0)] (1, 0) (3, 0) (1 / 2) rfl
    (by decide) (by norm_num [lerp]) (by norm_num) (by norm_num)
    (by decide) (by norm_num)

/-- Counterexample for C7 as stated: the curve endpoint `(0,0)` is at
distance zero from the link's own curve and the buffer radius is
positive, yet the detector does not flag it — under flat caps the
endpoint lies on the buffer polygon's boundary, which `contains`
excludes. -/
theorem c7_distance_zero_not_flagged :
    ((0:ℚ), (0:ℚ)) ∈ ([(0, 0), (1, 0)] : List Pt)
    ∧ (0:ℚ) < 3 / 20000
    ∧ violacionFlag [⟨"1", true, Geometry.lineString [(0, 0), (1, 0)]⟩]
        (3 / 20000) ⟨"1", some (0, 0)⟩ = some false := by
  refine ⟨by decide, by norm_num, ?_⟩
  norm_num [violacionFlag, Geometry.bufContains, bufferContains, segs,
    innerVertices, inOpenSegRect, inOpenDisk, List.filter, List.find?]
